import Mathlib

/-!
Verification of the NAP logger (streamlit_app.py) against its specification.

The embedding models the pure content of the app: sheet-reading row
normalization, the Apps Script append/update payloads and their
success/failure semantics, the save-changes loop, the add-report form
handler, the uid generator, and the session gate. Remote HTTP outcomes are
modelled as explicit inputs (a transport result per call), since the code
treats them as opaque successes or raised exceptions.
-/

namespace NAP

/-- A table as produced by read_sheet_as_df: a header row plus data rows. -/
structure DF where
  headers : List String
  rows : List (List String)
deriving Repr, DecidableEq

/-- Maximum data-row length, as in max((len(r) for r in data_rows), default=0). -/
def maxRowLen (rows : List (List String)) : Nat :=
  rows.foldr (fun r acc => max r.length acc) 0

/-- Synthetic header names col_i for the 1-based positions start, start+1, ... -/
def syntheticCols (start n : Nat) : List String :=
  (List.range' start n).map (fun i => "col_" ++ toString i)

/-- Header padding: headers ++ [col_i for i in range(len(headers)+1, max_len+1)]. -/
def padHeaders (headers : List String) (max_len : Nat) : List String :=
  headers ++ syntheticCols (headers.length + 1) (max_len - headers.length)

/-- Body of the normalization loop of read_sheet_as_df for one data row. -/
def normalizeRow (max_len : Nat) (r : List String) : List String :=
  if r.length < max_len then r ++ List.replicate (max_len - r.length) ""
  else if r.length > max_len then r.take max_len
  else r

/-- Embedding of read_sheet_as_df, as a function of the raw cell matrix
returned by the Sheets API (header row first, then data rows). -/
def read_sheet_as_df (vals : List (List String)) : DF :=
  match vals with
  | [] => ⟨[], []⟩
  | headers :: data_rows =>
    let max_len := max headers.length (maxRowLen data_rows)
    ⟨padHeaders headers max_len, data_rows.map (normalizeRow max_len)⟩

lemma maxRowLen_cons (a : List String) (as : List (List String)) :
    maxRowLen (a :: as) = max a.length (maxRowLen as) := rfl

lemma length_mem_le_maxRowLen {rows : List (List String)} {r : List String}
    (h : r ∈ rows) : r.length ≤ maxRowLen rows := by
  induction rows with
  | nil => cases h
  | cons a as ih =>
    rcases List.mem_cons.mp h with h | h
    · rw [h, maxRowLen_cons]; exact le_max_left _ _
    · exact le_trans (ih h) (by rw [maxRowLen_cons]; exact le_max_right _ _)

lemma length_padHeaders (headers : List String) (max_len : Nat)
    (h : headers.length ≤ max_len) : (padHeaders headers max_len).length = max_len := by
  simp [padHeaders, syntheticCols]
  omega

lemma length_normalizeRow (max_len : Nat) (r : List String) :
    (normalizeRow max_len r).length = max_len := by
  unfold normalizeRow
  by_cases h1 : r.length < max_len
  · simp [h1]; omega
  · by_cases h2 : r.length > max_len
    · simp [h1, h2]; omega
    · simp [h1, h2]; omega

lemma normalizeRow_of_le {max_len : Nat} {r : List String} (h : r.length ≤ max_len) :
    normalizeRow max_len r = r ++ List.replicate (max_len - r.length) "" := by
  unfold normalizeRow
  by_cases h1 : r.length < max_len
  · simp [h1]
  · have heq : r.length = max_len := le_antisymm h (not_lt.mp h1)
    simp [h1, heq]

/-- C1: for an input matrix made of a header row followed by data rows,
read_sheet_as_df produces a table of uniform width W equal to the maximum of
the header length and all data-row lengths; the header is padded with
synthetic names col_i for 1-based positions beyond the original header, data
rows shorter than W are right-padded with empty strings to W, and data rows
longer than W are truncated to W. -/
theorem C1_row_normalization (headers : List String) (data_rows : List (List String)) :
    (read_sheet_as_df (headers :: data_rows)).headers.length
        = max headers.length (maxRowLen data_rows) ∧
    (∀ r ∈ (read_sheet_as_df (headers :: data_rows)).rows,
        r.length = max headers.length (maxRowLen data_rows)) ∧
    (read_sheet_as_df (headers :: data_rows)).headers
        = headers ++ (List.range' (headers.length + 1)
            (max headers.length (maxRowLen data_rows) - headers.length)).map
            (fun i => "col_" ++ toString i) ∧
    (read_sheet_as_df (headers :: data_rows)).rows
        = data_rows.map (fun r =>
            if r.length < max headers.length (maxRowLen data_rows) then
              r ++ List.replicate (max headers.length (maxRowLen data_rows) - r.length) ""
            else r.take (max headers.length (maxRowLen data_rows))) := by
  refine ⟨length_padHeaders _ _ (le_max_left _ _), ?_, rfl, ?_⟩
  · intro r hr
    rcases List.mem_map.mp hr with ⟨r₀, _, rfl⟩
    exact length_normalizeRow _ _
  · show List.map _ _ = List.map _ _
    refine List.map_congr_left (fun r hr => ?_)
    by_cases h1 : r.length < max headers.length (maxRowLen data_rows)
    · rw [if_pos h1, normalizeRow_of_le (le_of_lt h1)]
    · rw [if_neg h1]
      by_cases h2 : r.length > max headers.length (maxRowLen data_rows)
      · unfold normalizeRow
        rw [if_neg h1, if_pos h2]
      · have heq : r.length = max headers.length (maxRowLen data_rows) := by omega
        unfold normalizeRow
        rw [if_neg h1, if_neg h2, ← heq, List.take_length]

/-- C10: the truncation branch of read_sheet_as_df is unreachable: because the
normalization width is the maximum over the header length and all data-row
lengths, no data row is longer than the width, every data row is normalized
by right-padding only, and every cell of every input data row appears
unchanged in the output table. -/
theorem C10_truncation_unreachable (headers : List String) (data_rows : List (List String)) :
    (∀ r ∈ data_rows, ¬ (max headers.length (maxRowLen data_rows) < r.length)) ∧
    (read_sheet_as_df (headers :: data_rows)).rows = data_rows.map (fun r =>
        r ++ List.replicate (max headers.length (maxRowLen data_rows) - r.length) "") ∧
    (∀ r ∈ data_rows,
        (normalizeRow (max headers.length (maxRowLen data_rows)) r).take r.length = r) := by
  have hle : ∀ r ∈ data_rows, r.length ≤ max headers.length (maxRowLen data_rows) :=
    fun r hr => le_trans (length_mem_le_maxRowLen hr) (le_max_right _ _)
  refine ⟨fun r hr => not_lt.mpr (hle r hr), ?_, fun r hr => ?_⟩
  · show List.map _ _ = List.map _ _
    exact List.map_congr_left (fun r hr => normalizeRow_of_le (hle r hr))
  · rw [normalizeRow_of_le (hle r hr), List.take_left]

/-- Witness for C1 on a concrete ragged matrix. -/
theorem C1_row_normalization_witness :
    (["a", "b"] : List String) ∈ (read_sheet_as_df [["h1"], ["a", "b"], ["c"]]).rows ∧
    (["a", "b"] : List String).length
      = max (["h1"] : List String).length (maxRowLen [["a", "b"], ["c"]]) :=
  ⟨by decide, (C1_row_normalization ["h1"] [["a", "b"], ["c"]]).2.1 ["a", "b"] (by decide)⟩

/-- Witness for C10 on a concrete ragged matrix. -/
theorem C10_truncation_unreachable_witness :
    (["a", "b"] : List String) ∈ [["a", "b"], ["c"]] ∧
    ¬ (max (["h1"] : List String).length (maxRowLen [["a", "b"], ["c"]])
        < (["a", "b"] : List String).length) :=
  ⟨by decide, (C10_truncation_unreachable ["h1"] [["a", "b"], ["c"]]).1 ["a", "b"] (by decide)⟩

/-- Initial session gate state: st.session_state.logged_in is created False. -/
def gateInit : Bool := false

/-- One script run of the session gate: given the current logged_in flag, the
admin password, and an optional login attempt (some pw when the Log in button
was pressed with input pw), return the logged_in flag after the run and
whether the main UI below st.stop() was reached during the run. -/
def gateRun (logged_in : Bool) (admin : String) (attempt : Option String) : Bool × Bool :=
  if logged_in then (true, true)
  else
    match attempt with
    | some pw => (decide (pw = admin), false)
    | none => (false, false)

/-- C8: the session gate has exactly two states with initial state LoggedOut;
the only transition out of LoggedOut is to LoggedIn on an exact password
match; no run transitions LoggedIn back to LoggedOut; and the main
functionality (read, edit, save, append) is reached in a run exactly when the
state is LoggedIn, so while LoggedOut processing hard-stops first. -/
theorem C8_session_gate :
    gateInit = false ∧
    (∀ admin attempt, ((gateRun false admin attempt).1 = true ↔ attempt = some admin)) ∧
    (∀ admin attempt, (gateRun true admin attempt).1 = true) ∧
    (∀ s admin attempt, ((gateRun s admin attempt).2 = true ↔ s = true)) := by
  refine ⟨rfl, fun admin attempt => ?_, fun admin attempt => rfl, fun s admin attempt => ?_⟩
  · cases attempt <;> simp [gateRun]
  · cases s <;> cases attempt <;> simp [gateRun]

/-- JSON body of an HTTP response, as far as append_row and update_row_by_uid
inspect it: resp.text may be empty (then j = empty dict), resp.json() may
raise on invalid JSON, or the parsed object carries an optional boolean ok
field (absent means j.get defaults to False). -/
inductive RespBody where
  | emptyText
  | invalidJson
  | jsonObj (ok : Option Bool)
deriving Repr, DecidableEq

/-- Outcome of one HTTP POST: a transport failure (connection error, timeout,
or a non-success status raised by raise_for_status) or a response body. -/
inductive PostResult where
  | transportError
  | response (body : RespBody)
deriving Repr, DecidableEq

/-- Shared secret sent to the Apps Script endpoint. -/
def APP_SCRIPT_PASSWORD : String := "supersecret123"

/-- Named-field payload POSTed by append_row. -/
structure AddPayload where
  password : String
  action : String
  uid : String
  timestamp : String
  reporter : String
  violator : String
  category : String
  description : String
  coords : String
  proofs : String
deriving Repr, DecidableEq

/-- Payload construction of append_row: each named field takes the positional
value from row_list when present, else the empty string. -/
def appendPayload (row_list : List String) : AddPayload :=
  { password := APP_SCRIPT_PASSWORD
    action := "add"
    uid := row_list.getD 0 ""
    timestamp := row_list.getD 1 ""
    reporter := row_list.getD 2 ""
    violator := row_list.getD 3 ""
    category := row_list.getD 4 ""
    description := row_list.getD 5 ""
    coords := row_list.getD 6 ""
    proofs := row_list.getD 7 "" }

/-- Embedding of append_row: it makes exactly one POST of the named-field
payload; the result is the payload it sent and ok () when no exception is
raised, or error when the transport fails, the JSON cannot be parsed, or
the parsed object does not report ok == true. -/
def append_row (row_list : List String) (post : PostResult) :
    AddPayload × Except String Unit :=
  (appendPayload row_list,
    match post with
    | .transportError => .error "transport failure"
    | .response .invalidJson => .error "invalid JSON"
    | .response .emptyText => .error "Apps Script returned error"
    | .response (.jsonObj (some true)) => .ok ()
    | .response (.jsonObj (some false)) => .error "Apps Script returned error"
    | .response (.jsonObj none) => .error "Apps Script returned error")

/-- C6: append_row raises exactly when the POST transport fails or the parsed
JSON response does not report ok == true, and the single payload it submits
maps the input list positionally to the named fields uid, timestamp,
reporter, violator, category, description, coords, proofs. -/
theorem C6_append_row_semantics :
    (∀ row_list post, ((append_row row_list post).2 = .ok ()
        ↔ post = .response (.jsonObj (some true)))) ∧
    (∀ row_list post, (append_row row_list post).1 =
        { password := APP_SCRIPT_PASSWORD
          action := "add"
          uid := row_list.getD 0 ""
          timestamp := row_list.getD 1 ""
          reporter := row_list.getD 2 ""
          violator := row_list.getD 3 ""
          category := row_list.getD 4 ""
          description := row_list.getD 5 ""
          coords := row_list.getD 6 ""
          proofs := row_list.getD 7 "" }) := by
  refine ⟨fun row_list post => ?_, fun row_list post => rfl⟩
  rcases post with _ | body
  · simp [append_row]
  · rcases body with _ | _ | ok
    · simp [append_row]
    · simp [append_row]
    · rcases ok with _ | b
      · simp [append_row]
      · cases b <;> simp [append_row]

/-- Lowercase hex digit character for a nibble value below 16. -/
def hexChar (n : Nat) : Char :=
  if n < 10 then Char.ofNat (48 + n) else Char.ofNat (97 + (n - 10))

/-- Big-endian list of the k low hex digits of q. -/
def hexDigitsOf : Nat → Nat → List Nat
  | 0, _ => []
  | k + 1, q => (q / 16 ^ k) % 16 :: hexDigitsOf k q

/-- The 32 characters of uuid.uuid4().hex, as a function of the 128-bit
value r carried by the generated UUID. -/
def uuid4_hex (r : Nat) : List Char := (hexDigitsOf 32 r).map hexChar

/-- uid generation at form submission: uuid.uuid4().hex[:10]. -/
def genUid (r : Nat) : List Char := (uuid4_hex r).take 10

/-- The generated uid as a string. -/
def genUidStr (r : Nat) : String := String.mk (genUid r)

/-- Numeric value of a lowercase hex digit character. -/
def hexCharVal (c : Char) : Nat :=
  if 97 ≤ c.toNat then c.toNat - 87 else c.toNat - 48

/-- Big-endian decode of a lowercase hex digit string. -/
def hexDecode (l : List Char) : Nat := l.foldl (fun a c => a * 16 + hexCharVal c) 0

lemma length_hexDigitsOf (k q : Nat) : (hexDigitsOf k q).length = k := by
  induction k generalizing q with
  | zero => rfl
  | succ k ih => simp [hexDigitsOf, ih]

lemma take_hexDigitsOf (j : Nat) : ∀ k q, (hexDigitsOf (j + k) q).take j
    = hexDigitsOf j (q / 16 ^ k) := by
  induction j with
  | zero => intro k q; rfl
  | succ j ih =>
    intro k q
    have h1 : j + 1 + k = (j + k) + 1 := by omega
    rw [h1]
    simp only [hexDigitsOf, List.take_succ_cons]
    rw [ih k q, Nat.div_div_eq_div_mul, ← pow_add, Nat.add_comm k j]

lemma mem_hexDigitsOf_lt : ∀ k q n, n ∈ hexDigitsOf k q → n < 16 := by
  intro k
  induction k with
  | zero => intro q n hn; cases hn
  | succ k ih =>
    intro q n hn
    rcases List.mem_cons.mp hn with h | h
    · rw [h]; exact Nat.mod_lt _ (by norm_num)
    · exact ih q n h

lemma hexCharVal_hexChar : ∀ n < 16, hexCharVal (hexChar n) = n := by decide

lemma hexChar_mem_alphabet : ∀ n < 16, hexChar n ∈ ("0123456789abcdef".data) := by decide

lemma foldl_hexDecode_hexDigitsOf (k : Nat) : ∀ a q,
    List.foldl (fun a c => a * 16 + hexCharVal c) a ((hexDigitsOf k q).map hexChar)
      = a * 16 ^ k + q % 16 ^ k := by
  induction k with
  | zero => intro a q; simp [hexDigitsOf, Nat.mod_one]
  | succ k ih =>
    intro a q
    simp only [hexDigitsOf, List.map_cons, List.foldl_cons]
    rw [ih, hexCharVal_hexChar _ (Nat.mod_lt _ (by norm_num)), Nat.mod_pow_succ]
    ring

lemma hexDecode_hexDigitsOf {k q : Nat} (h : q < 16 ^ k) :
    hexDecode ((hexDigitsOf k q).map hexChar) = q := by
  rw [hexDecode, foldl_hexDecode_hexDigitsOf, Nat.zero_mul, Nat.zero_add,
    Nat.mod_eq_of_lt h]

lemma genUid_eq (r : Nat) : genUid r = (hexDigitsOf 10 (r / 16 ^ 22)).map hexChar := by
  rw [genUid, uuid4_hex, ← List.map_take, show (32 : Nat) = 10 + 22 from rfl,
    take_hexDigitsOf]

lemma div_pow_lt {r : Nat} (h : r < 16 ^ 32) : r / 16 ^ 22 < 16 ^ 10 := by
  apply Nat.div_lt_of_lt_mul
  calc r < 16 ^ 32 := h
    _ = 16 ^ 22 * 16 ^ 10 := by rw [← pow_add]

/-- Whitespace stripping on both ends of a character list, modelling the
Python str.strip() used by the submission handler. -/
def stripChars (l : List Char) : List Char :=
  ((l.dropWhile Char.isWhitespace).reverse.dropWhile Char.isWhitespace).reverse

/-- Python str.strip() on a string value. -/
def pyStrip (s : String) : String := String.mk (stripChars s.data)

/-- Result of one add-report form submission: whether the validation error
message was shown, and the row passed to append_row when it was called. -/
structure SubmitResult where
  errorShown : Bool
  appendedRow : Option (List String)
deriving Repr, DecidableEq

/-- Embedding of the add-report submission handler: reporter and description
are validated after stripping whitespace; on success the handler builds the
row [uid, timestamp, reporter, violator, category, description, coords,
links] with uid = uuid4().hex[:10] from the fresh random value r and links =
proof_links stripped, and calls append_row on that row; on validation
failure it shows an error and never calls append_row. -/
def handleSubmit (r : Nat)
    (timestamp reporter violator category description coords proof_links : String) :
    SubmitResult :=
  if pyStrip reporter = "" ∨ pyStrip description = "" then
    { errorShown := true, appendedRow := none }
  else
    { errorShown := false,
      appendedRow := some [genUidStr r, timestamp, reporter, violator, category,
        description, coords, pyStrip proof_links] }

/-- C5: whenever the reporter field or the description field is empty after
stripping whitespace, the submission handler shows an error message and
never calls append_row, so no write is attempted. -/
theorem C5_validation_blocks_append (r : Nat)
    (timestamp reporter violator category description coords proof_links : String)
    (h : pyStrip reporter = "" ∨ pyStrip description = "") :
    handleSubmit r timestamp reporter violator category description coords proof_links
      = { errorShown := true, appendedRow := none } := by
  rw [handleSubmit, if_pos h]

/-- Witness for C5 at a whitespace-only reporter. -/
theorem C5_validation_blocks_append_witness :
    (pyStrip "  " = "" ∨ pyStrip "d" = "") ∧
    handleSubmit 0 "2024-01-01T10:00:00" "  " "WCE" "Scouting" "d" "X:1 Y:2" ""
      = { errorShown := true, appendedRow := none } :=
  ⟨Or.inl (by decide), C5_validation_blocks_append 0 _ _ _ _ _ _ _ (Or.inl (by decide))⟩

/-- C7: the uid generated for a report submission is exactly 10 characters,
each a lowercase hexadecimal digit; it is determined by, and determines, the
40 fresh random bits it is drawn from, so repeated calls collide only when
those random bits collide; and every accepted submission places this uid in
the first position of the appended row. -/
theorem C7_uid_generation :
    (∀ r, (genUidStr r).length = 10) ∧
    (∀ r, ∀ c ∈ (genUidStr r).data, c ∈ ("0123456789abcdef".data)) ∧
    (∀ r₁ r₂, r₁ < 16 ^ 32 → r₂ < 16 ^ 32 →
      (genUidStr r₁ = genUidStr r₂ ↔ r₁ / 16 ^ 22 = r₂ / 16 ^ 22)) ∧
    (∀ r timestamp reporter violator category description coords proof_links row,
      (handleSubmit r timestamp reporter violator category description coords
          proof_links).appendedRow = some row →
      row.head? = some (genUidStr r)) := by
  have hlen : ∀ r, (genUid r).length = 10 := by
    intro r
    rw [genUid_eq, List.length_map, length_hexDigitsOf]
  refine ⟨?_, ?_, ?_, ?_⟩
  · intro r
    show (genUid r).length = 10
    exact hlen r
  · intro r c hc
    rw [show (genUidStr r).data = genUid r from rfl, genUid_eq] at hc
    rcases List.mem_map.mp hc with ⟨n, hn, rfl⟩
    exact hexChar_mem_alphabet n (mem_hexDigitsOf_lt _ _ n hn)
  · intro r₁ r₂ h₁ h₂
    constructor
    · intro h
      have hu : genUid r₁ = genUid r₂ := congrArg String.data h
      rw [genUid_eq, genUid_eq] at hu
      have := congrArg hexDecode hu
      rwa [hexDecode_hexDigitsOf (div_pow_lt h₁),
        hexDecode_hexDigitsOf (div_pow_lt h₂)] at this
    · intro h
      show String.mk (genUid r₁) = String.mk (genUid r₂)
      rw [genUid_eq, genUid_eq, h]
  · intro r timestamp reporter violator category description coords proof_links row h
    rw [handleSubmit] at h
    by_cases hval : pyStrip reporter = "" ∨ pyStrip description = ""
    · rw [if_pos hval] at h; cases h
    · rw [if_neg hval] at h
      cases h
      rfl

/-- Witness for C7, applying it at two concrete random values and one
concrete accepted submission. -/
theorem C7_uid_generation_witness :
    (genUidStr 0).length = 10 ∧ (0 : Nat) < 16 ^ 32 ∧ (1 : Nat) < 16 ^ 32 ∧
    (genUidStr 0 = genUidStr 1 ↔ (0 : Nat) / 16 ^ 22 = 1 / 16 ^ 22) ∧
    ([genUidStr 0, "2024-01-01T10:00:00", "alice", "WCE", "Scouting", "saw scouts",
        "X:10 Y:20", pyStrip ""] : List String).head? = some (genUidStr 0) :=
  ⟨C7_uid_generation.1 0, by norm_num, by norm_num,
    C7_uid_generation.2.2.1 0 1 (by norm_num) (by norm_num),
    C7_uid_generation.2.2.2 0 "2024-01-01T10:00:00" "alice" "WCE" "Scouting"
      "saw scouts" "X:10 Y:20" "" _ rfl⟩

/-- A Python value as it may appear in the data dict given to
update_row_by_uid: a string, an int, None, or something else (skipped by the
isinstance filter). Floats are carried by the same filter; they are not
produced by this app and are folded into vother for the embedding. -/
inductive PyVal where
  | vstr (s : String)
  | vint (n : Int)
  | vnone
  | vother
deriving Repr, DecidableEq

/-- Stringification applied by update_row_by_uid: empty for None, str(v)
otherwise. The vother case never reaches stringification. -/
def pyStr : PyVal → String
  | .vstr s => s
  | .vint n => toString n
  | .vnone => ""
  | .vother => ""

/-- The isinstance (str, int, float) or None filter of update_row_by_uid. -/
def isSimple : PyVal → Bool
  | .vother => false
  | _ => true

/-- Payload POSTed by update_row_by_uid: base fields plus one stringified
entry per simple-valued key of the data dict. -/
structure UpdatePayload where
  password : String
  action : String
  uid : String
  fields : List (String × String)
deriving Repr, DecidableEq

/-- Payload construction of update_row_by_uid from its uid and data dict. -/
def update_row_by_uid_payload (uid : String) (data_dict : List (String × PyVal)) :
    UpdatePayload :=
  { password := APP_SCRIPT_PASSWORD
    action := "update"
    uid := uid
    fields := (data_dict.filter (fun kv => isSimple kv.2)).map
      (fun kv => (kv.1, pyStr kv.2)) }

/-- Embedding of update_row_by_uid: one POST of the payload; ok () when the
remote reports ok == true, error on transport failure, unparsable JSON,
empty body, or ok != true. -/
def update_row_by_uid (uid : String) (data_dict : List (String × PyVal))
    (post : PostResult) : UpdatePayload × Except String Unit :=
  (update_row_by_uid_payload uid data_dict,
    match post with
    | .transportError => .error "transport failure"
    | .response .invalidJson => .error "invalid JSON"
    | .response .emptyText => .error "Apps Script returned error"
    | .response (.jsonObj (some true)) => .ok ()
    | .response (.jsonObj (some false)) => .error "Apps Script returned error"
    | .response (.jsonObj none) => .error "Apps Script returned error")

/-- Cell of a row under a header column name: the value at the index of the
first occurrence of the name, empty when absent. -/
def cellOf (headers : List String) (row : List String) (col : String) : String :=
  row.getD (headers.indexOf col) ""

/-- Modelled from the spec: the remote Apps Script that executes the update
action is not part of this repository, only the client that posts to it is.
Per the spec, update keyed by uid rewrites, in the first row whose uid
column equals the key, every column present in the posted field mapping to
the posted value, leaving other columns and rows unchanged. This function
rewrites one row under a field mapping. -/
def writeRow (headers : List String) (fields : List (String × String))
    (row : List String) : List String :=
  (List.range headers.length).map (fun j =>
    match fields.lookup (headers.getD j "") with
    | some v => v
    | none => row.getD j "")

/-- Update of the first row satisfying a predicate. -/
def updateFirst (p : List String → Bool) (f : List String → List String) :
    List (List String) → List (List String)
  | [] => []
  | r :: rs => if p r then f r :: rs else r :: updateFirst p f rs

/-- Modelled from the spec: the store-side effect of the update action posted
by update_row_by_uid, rewriting the first row whose uid column matches. -/
def applyUpdateByUid (headers : List String) (rows : List (List String))
    (uid : String) (fields : List (String × String)) : List (List String) :=
  updateFirst (fun r => cellOf headers r "uid" == uid) (writeRow headers fields) rows

lemma getD_map_range {n j : Nat} (g : Nat → String) (h : j < n) :
    (((List.range n).map g).getD j "") = g j := by
  rw [List.getD_eq_getElem?_getD, List.getElem?_map, List.getElem?_range h]
  rfl

lemma length_writeRow (headers : List String) (fields : List (String × String))
    (row : List String) : (writeRow headers fields row).length = headers.length := by
  simp [writeRow]

lemma getD_writeRow (headers : List String) (fields : List (String × String))
    (row : List String) {j : Nat} (hjn : j < headers.length) :
    (writeRow headers fields row).getD j "" =
      (match fields.lookup (headers.getD j "") with
       | some v => v
       | none => row.getD j "") := by
  unfold writeRow
  exact getD_map_range _ hjn

lemma writeRow_writeRow (headers : List String) (fields : List (String × String))
    (row : List String) :
    writeRow headers fields (writeRow headers fields row) = writeRow headers fields row := by
  apply List.ext_getElem
  · rw [length_writeRow, length_writeRow]
  · intro j h1 h2
    have hjn : j < headers.length := by rwa [length_writeRow] at h2
    rw [← List.getD_eq_getElem _ "" h1, ← List.getD_eq_getElem _ "" h2,
      getD_writeRow headers fields _ hjn, getD_writeRow headers fields _ hjn]
    cases hf : fields.lookup (headers.getD j "") <;> rfl

lemma updateFirst_of_countP_zero (p : List String → Bool)
    (f : List String → List String) (rs : List (List String))
    (h : rs.countP p = 0) : updateFirst p f rs = rs := by
  induction rs with
  | nil => rfl
  | cons r rs ih =>
    have hp : ¬ (p r = true) := by
      intro hc
      rw [List.countP_cons, if_pos hc] at h
      omega
    rw [List.countP_cons, if_neg hp] at h
    rw [updateFirst, if_neg hp, ih (by omega)]

lemma updateFirst_idem (p : List String → Bool) (f : List String → List String)
    (hf : ∀ r, f (f r) = f r) :
    ∀ rs : List (List String), rs.countP p ≤ 1 →
      updateFirst p f (updateFirst p f rs) = updateFirst p f rs := by
  intro rs
  induction rs with
  | nil => intro _; rfl
  | cons r rs ih =>
    intro hcount
    by_cases hp : p r
    · have hrs : rs.countP p = 0 := by
        rw [List.countP_cons, if_pos hp] at hcount
        omega
      rw [updateFirst, if_pos hp]
      by_cases hpf : p (f r)
      · rw [updateFirst, if_pos hpf, hf r]
      · rw [updateFirst, if_neg hpf, updateFirst_of_countP_zero p f rs hrs]
    · have hle : rs.countP p ≤ 1 := by
        rw [List.countP_cons, if_neg hp] at hcount
        omega
      rw [updateFirst, if_neg hp, updateFirst, if_neg hp, ih hle]

/-- C9: the update operation is idempotent. With the payload that
update_row_by_uid posts for a given uid and data dict, applying the store
update twice leaves the same final row contents as applying it once,
provided at most one stored row carries that uid (the uniqueness the spec
expects of uid values). -/
theorem C9_update_idempotent (headers : List String) (rows : List (List String))
    (uid : String) (data_dict : List (String × PyVal))
    (huniq : rows.countP
      (fun r => cellOf headers r "uid" == (update_row_by_uid_payload uid data_dict).uid) ≤ 1) :
    applyUpdateByUid headers
        (applyUpdateByUid headers rows (update_row_by_uid_payload uid data_dict).uid
          (update_row_by_uid_payload uid data_dict).fields)
        (update_row_by_uid_payload uid data_dict).uid
        (update_row_by_uid_payload uid data_dict).fields
      = applyUpdateByUid headers rows (update_row_by_uid_payload uid data_dict).uid
          (update_row_by_uid_payload uid data_dict).fields := by
  apply updateFirst_idem
  · exact writeRow_writeRow headers _
  · exact huniq

/-- Concrete store header for the C9 witness. -/
def c9Headers : List String := ["uid", "description"]

/-- Concrete store rows for the C9 witness. -/
def c9Rows : List (List String) := [["u1", "old"], ["u2", "x"]]

/-- Concrete data dict for the C9 witness. -/
def c9Dict : List (String × PyVal) :=
  [("uid", PyVal.vstr "u1"), ("description", PyVal.vstr "new")]

/-- Witness for C9 on a two-row store with distinct uids. -/
theorem C9_update_idempotent_witness :
    c9Rows.countP (fun r => cellOf c9Headers r "uid"
        == (update_row_by_uid_payload "u1" c9Dict).uid) ≤ 1 ∧
    applyUpdateByUid c9Headers
        (applyUpdateByUid c9Headers c9Rows (update_row_by_uid_payload "u1" c9Dict).uid
          (update_row_by_uid_payload "u1" c9Dict).fields)
        (update_row_by_uid_payload "u1" c9Dict).uid
        (update_row_by_uid_payload "u1" c9Dict).fields
      = applyUpdateByUid c9Headers c9Rows (update_row_by_uid_payload "u1" c9Dict).uid
          (update_row_by_uid_payload "u1" c9Dict).fields :=
  ⟨by decide, C9_update_idempotent c9Headers c9Rows "u1" c9Dict (by decide)⟩

/-- A row of the data editor at save time: the sheet_row cell when int() can
parse it (none models the rows skipped by the except branch), and the named
cells as a column-to-value association list (key presence models row.index). -/
structure EditedRow where
  sheet_row : Option Int
  cells : List (String × String)
deriving Repr, DecidableEq

/-- row.get(col, ""): the cell value under a column name, empty when absent. -/
def rowGet (row : EditedRow) (col : String) : String :=
  (row.cells.lookup col).getD ""

/-- col in row.index: whether the edited row carries the column at all. -/
def rowHas (row : EditedRow) (col : String) : Bool :=
  (row.cells.lookup col).isSome

/-- df.iloc[i].get("uid", ""): the uid cell of the original table at index i. -/
def origUidCell (df : DF) (i : Nat) : String :=
  cellOf df.headers (df.rows.getD i []) "uid"

/-- Update-key resolution of the save handler: prefer a non-empty uid carried
by the edited row; else, when the index sheet_row - 2 is in range of the
original table and a uid column exists, the uid cell found there; else none. -/
def resolveUid (df : DF) (row : EditedRow) (sheet_row : Int) : Option String :=
  if rowHas row "uid" = true ∧ rowGet row "uid" ≠ "" then some (rowGet row "uid")
  else
    if 0 ≤ sheet_row - 2 ∧ sheet_row - 2 < (df.rows.length : Int) ∧ "uid" ∈ df.headers then
      some (origUidCell df (sheet_row - 2).toNat)
    else none

/-- Python truthiness of the resolved uid value: None and the empty string
are falsy. -/
def optTruthy : Option String → Bool
  | some s => !(s == "")
  | none => false

/-- A remote update call issued while saving one row. -/
inductive UpdCall where
  | primary (uid : String) (data_dict : List (String × String))
  | fallback (sheet_row : Int) (row_values : List String)
deriving Repr, DecidableEq

/-- What the handler did for one edited row. -/
inductive RowOutcome where
  | skipped
  | updated
  | failed
deriving Repr, DecidableEq

/-- Remote outcome for one row at save time: whether the Apps Script update
raises, and whether the Sheets API fallback update raises. -/
structure UpdateEnv where
  primaryOk : Bool
  fallbackOk : Bool
deriving Repr, DecidableEq

/-- Body of the save loop for one edited row carrying a parsed sheet_row:
build row_values in header order, resolve a uid; with a truthy uid try the
primary update and fall back to the positional update only when the primary
raises; with no truthy uid go to the positional update directly; count the
row as updated when the attempt that ran last succeeded, else emit one error. -/
def processRowAt (df : DF) (row : EditedRow) (env : UpdateEnv) (sheet_row : Int) :
    RowOutcome × List UpdCall :=
  let row_values := df.headers.map (fun col => rowGet row col)
  let uid_val := resolveUid df row sheet_row
  if optTruthy uid_val then
    let data_dict := df.headers.map (fun col => (col, rowGet row col))
    if env.primaryOk then (.updated, [.primary (uid_val.getD "") data_dict])
    else if env.fallbackOk then
      (.updated, [.primary (uid_val.getD "") data_dict, .fallback sheet_row row_values])
    else (.failed, [.primary (uid_val.getD "") data_dict, .fallback sheet_row row_values])
  else
    if env.fallbackOk then (.updated, [.fallback sheet_row row_values])
    else (.failed, [.fallback sheet_row row_values])

/-- Processing of one edited row: rows without a parsable sheet_row are
skipped silently, the rest go through processRowAt. -/
def processRow (df : DF) (row : EditedRow) (env : UpdateEnv) :
    RowOutcome × List UpdCall :=
  match row.sheet_row with
  | none => (.skipped, [])
  | some sheet_row => processRowAt df row env sheet_row

/-- Outcome of the save loop for one edited row and its remote environment. -/
def outcomeOf (df : DF) (re : EditedRow × UpdateEnv) : RowOutcome :=
  (processRow df re.1 re.2).1

/-- Accumulation step of the save loop: updated rows increment the success
count, failed rows add one error message, skipped rows change nothing. -/
def saveStep (df : DF) (acc : Nat × Nat) (re : EditedRow × UpdateEnv) : Nat × Nat :=
  match outcomeOf df re with
  | .updated => (acc.1 + 1, acc.2)
  | .failed => (acc.1, acc.2 + 1)
  | .skipped => acc

/-- The whole save loop: processes every edited row and returns the reported
success count and the number of error messages shown. -/
def saveChanges (df : DF) (edited : List (EditedRow × UpdateEnv)) : Nat × Nat :=
  edited.foldl (saveStep df) (0, 0)

lemma foldl_saveStep (df : DF) : ∀ (edited : List (EditedRow × UpdateEnv)) (a : Nat × Nat),
    edited.foldl (saveStep df) a
      = (a.1 + edited.countP (fun re => outcomeOf df re == RowOutcome.updated),
         a.2 + edited.countP (fun re => outcomeOf df re == RowOutcome.failed)) := by
  intro edited
  induction edited with
  | nil => intro a; simp
  | cons re rest ih =>
    intro a
    rw [List.foldl_cons, ih]
    rcases ho : outcomeOf df re with _ | _ | _ <;>
      simp [saveStep, ho, List.countP_cons] <;> omega

lemma saveChanges_eq_counts (df : DF) (edited : List (EditedRow × UpdateEnv)) :
    saveChanges df edited
      = (edited.countP (fun re => outcomeOf df re == RowOutcome.updated),
         edited.countP (fun re => outcomeOf df re == RowOutcome.failed)) := by
  rw [saveChanges, foldl_saveStep]
  simp

lemma countP_outcomes (df : DF) (edited : List (EditedRow × UpdateEnv)) :
    edited.countP (fun re => outcomeOf df re == RowOutcome.updated)
      + edited.countP (fun re => outcomeOf df re == RowOutcome.failed)
      + edited.countP (fun re => outcomeOf df re == RowOutcome.skipped)
      = edited.length := by
  induction edited with
  | nil => rfl
  | cons re rest ih =>
    rcases ho : outcomeOf df re with _ | _ | _ <;>
      simp [List.countP_cons, ho] <;> omega

/-- C2: no row failure aborts the save loop; every edited row is processed,
each success increments the count, each fully failed row yields one error
message, and for 3 processed rows of which exactly one fails the reported
count is 2 with exactly one error message and no escaping exception. -/
theorem C2_partial_success (df : DF) (edited : List (EditedRow × UpdateEnv))
    (h3 : edited.length = 3)
    (hskip : edited.countP (fun re => outcomeOf df re == RowOutcome.skipped) = 0)
    (hfail : edited.countP (fun re => outcomeOf df re == RowOutcome.failed) = 1) :
    saveChanges df edited = (2, 1) := by
  have hsum := countP_outcomes df edited
  rw [hskip, hfail, h3] at hsum
  have hupd : edited.countP (fun re => outcomeOf df re == RowOutcome.updated) = 2 := by
    omega
  rw [saveChanges_eq_counts, hupd, hfail]

/-- Concrete original table for the C2 witness. -/
def c2Df : DF := ⟨["uid", "description"], [["u1", "a"], ["u2", "b"], ["u3", "c"]]⟩

/-- Concrete edited rows and remote outcomes for the C2 witness: the second
row fails on both transports. -/
def c2Edited : List (EditedRow × UpdateEnv) :=
  [(⟨some 2, [("uid", "u1"), ("description", "a2")]⟩, ⟨true, true⟩),
   (⟨some 3, [("uid", "u2"), ("description", "b2")]⟩, ⟨false, false⟩),
   (⟨some 4, [("uid", "u3"), ("description", "c2")]⟩, ⟨true, true⟩)]

/-- Witness for C2: three rows, one failing, give count 2 and one error. -/
theorem C2_partial_success_witness :
    c2Edited.length = 3 ∧
    c2Edited.countP (fun re => outcomeOf c2Df re == RowOutcome.skipped) = 0 ∧
    c2Edited.countP (fun re => outcomeOf c2Df re == RowOutcome.failed) = 1 ∧
    saveChanges c2Df c2Edited = (2, 1) :=
  ⟨by decide, by decide, by decide,
    C2_partial_success c2Df c2Edited (by decide) (by decide) (by decide)⟩

/-- C3: update-key resolution order for an edited row: a non-empty uid value
carried by the row wins; otherwise the uid is looked up in the original
table at index sheet_row - 2 provided that index is in range and a uid
column exists; otherwise the row has no resolvable uid. -/
theorem C3_uid_resolution (df : DF) (row : EditedRow) (sheet_row : Int) :
    ((rowHas row "uid" = true ∧ rowGet row "uid" ≠ "") →
      resolveUid df row sheet_row = some (rowGet row "uid")) ∧
    (¬ (rowHas row "uid" = true ∧ rowGet row "uid" ≠ "") →
      (0 ≤ sheet_row - 2 ∧ sheet_row - 2 < (df.rows.length : Int) ∧ "uid" ∈ df.headers) →
      resolveUid df row sheet_row = some (origUidCell df (sheet_row - 2).toNat)) ∧
    (¬ (rowHas row "uid" = true ∧ rowGet row "uid" ≠ "") →
      ¬ (0 ≤ sheet_row - 2 ∧ sheet_row - 2 < (df.rows.length : Int) ∧ "uid" ∈ df.headers) →
      resolveUid df row sheet_row = none) := by
  refine ⟨fun h => ?_, fun h1 h2 => ?_, fun h1 h2 => ?_⟩
  · rw [resolveUid, if_pos h]
  · rw [resolveUid, if_neg h1, if_pos h2]
  · rw [resolveUid, if_neg h1, if_neg h2]

/-- Concrete table for the C3 witness. -/
def c3Df : DF := ⟨["uid", "description"], [["u9", "z"]]⟩

/-- Concrete edited row for the C3 witness, carrying a non-empty uid. -/
def c3Row : EditedRow := ⟨some 5, [("uid", "u7"), ("description", "d")]⟩

/-- Witness for C3: a row carrying a non-empty uid resolves to that uid. -/
theorem C3_uid_resolution_witness :
    (rowHas c3Row "uid" = true ∧ rowGet c3Row "uid" ≠ "") ∧
    resolveUid c3Df c3Row 5 = some (rowGet c3Row "uid") :=
  ⟨by decide, (C3_uid_resolution c3Df c3Row 5).1 (by decide)⟩

/-- C4: when a uid resolves truthily for an edited row, the handler calls the
primary update first, keyed by that uid with a mapping from every header
column to the edited value, and attempts the positional fallback update,
passing the edited values as a raw list in header order, if and only if the
primary call raises. -/
theorem C4_primary_then_fallback (df : DF) (row : EditedRow) (env : UpdateEnv)
    (sr : Int) (hsr : row.sheet_row = some sr)
    (htr : optTruthy (resolveUid df row sr) = true) :
    (processRow df row env).2.head?
        = some (UpdCall.primary ((resolveUid df row sr).getD "")
            (df.headers.map (fun col => (col, rowGet row col)))) ∧
    ((UpdCall.fallback sr (df.headers.map (fun col => rowGet row col)))
        ∈ (processRow df row env).2 ↔ env.primaryOk = false) ∧
    (processRow df row env).2
      = (if env.primaryOk then
          [UpdCall.primary ((resolveUid df row sr).getD "")
            (df.headers.map (fun col => (col, rowGet row col)))]
         else
          [UpdCall.primary ((resolveUid df row sr).getD "")
            (df.headers.map (fun col => (col, rowGet row col))),
           UpdCall.fallback sr (df.headers.map (fun col => rowGet row col))]) := by
  have hpr : processRow df row env = processRowAt df row env sr := by
    rw [processRow, hsr]
  rcases env with ⟨po, fo⟩
  cases po <;> cases fo <;>
    simp [hpr, processRowAt, htr]

/-- Concrete edited row for the C4 witness. -/
def c4Row : EditedRow := ⟨some 3, [("uid", "u2"), ("description", "d")]⟩

/-- Concrete table for the C4 witness. -/
def c4Df : DF := ⟨["uid", "description"], [["u1", "a"], ["u2", "b"]]⟩

/-- Witness for C4 with a failing primary transport: the fallback call is
attempted after the primary one. -/
theorem C4_primary_then_fallback_witness :
    c4Row.sheet_row = some 3 ∧
    optTruthy (resolveUid c4Df c4Row 3) = true ∧
    ((UpdCall.fallback 3 (c4Df.headers.map (fun col => rowGet c4Row col)))
        ∈ (processRow c4Df c4Row ⟨false, true⟩).2 ↔ (⟨false, true⟩ : UpdateEnv).primaryOk = false) :=
  ⟨rfl, by decide,
    (C4_primary_then_fallback c4Df c4Row ⟨false, true⟩ 3 rfl (by decide)).2.1⟩

end NAP
